import Mathlib

/-!
Verification of the icon generator (src/generate_icons.py).

The script renders a Blockbuster-style app icon at several fixed pixel
sizes with PIL drawing calls and writes the images plus a Contents.json
manifest into an output directory.  This file is a shallow embedding of
that script: images are pixel functions, each ImageDraw call is a
constructor of an operation trace, and the file-writing loop of main()
is a list of (filename, contents) writes applied to a map from names to
file contents.  Font metrics and glyph rasters depend on the fonts of
the host system, so the embedding is parameterised over them by a
FontCtx.
-/

/-- An RGBA pixel value, one Nat in 0..255 per channel. -/
structure RGBA where
  r : Nat
  g : Nat
  b : Nat
  a : Nat
deriving DecidableEq, Repr

/-- Blockbuster blue of line 10, extended with the full alpha that line 14
passes to Image.new. -/
def blue : RGBA := ⟨0, 51, 153, 255⟩

/-- Blockbuster yellow of line 11.  PIL extends an RGB fill with alpha 255
when drawing on an RGBA image. -/
def yellow : RGBA := ⟨255, 204, 0, 255⟩

/-- The half-transparent black ink of the text shadows, lines 90 and 107. -/
def shadowBlack : RGBA := ⟨0, 0, 0, 128⟩

/-- The font-dependent inputs of the script: textW and textH are the width
bbox[2] - bbox[0] and height bbox[3] - bbox[1] that draw.textbbox reports
for a string at a font size, and cov is the 0..255 coverage with which the
rendered glyph mask of a draw.text call at a given position blends the ink
into the canvas at a pixel.  They depend on the font files of the host, so
the embedding quantifies over them. -/
structure FontCtx where
  textW : String → Nat → Nat
  textH : String → Nat → Nat
  cov : String → Nat → Int × Int → Nat → Nat → Nat
  cov_le : ∀ s fs p x y, cov s fs p x y ≤ 255

/-- An in-memory raster image of mode RGBA: dimensions and a pixel map. -/
structure Img where
  width : Nat
  height : Nat
  px : Nat → Nat → RGBA

/-- Image.new of a size-by-size canvas with a constant fill (line 14). -/
def imageNew (size : Nat) (c : RGBA) : Img := ⟨size, size, fun _ _ => c⟩

/-- Compositing one pixel: ink pasted over the background through a mask
value c in 0..255, channelwise (ink * c + bg * (255 - c)) / 255, which is
how PIL pastes a fill through a rendered text mask. -/
def blendPx (bg ink : RGBA) (c : Nat) : RGBA :=
  ⟨(ink.r * c + bg.r * (255 - c)) / 255,
   (ink.g * c + bg.g * (255 - c)) / 255,
   (ink.b * c + bg.b * (255 - c)) / 255,
   (ink.a * c + bg.a * (255 - c)) / 255⟩

/-- One ImageDraw call issued by create_blockbuster_icon on the RGBA
canvas, in the order of the source.  Box and polygon coordinates are Nat:
for every size the script ever passes (16 up to 2048) the arithmetic of
the source never goes negative.  Text positions are Int because
(size - text_width) // 2 can be negative for wide font metrics. -/
inductive DrawOp where
  | polygon (pts : List (Nat × Nat)) (fill : RGBA)
  | rect (x0 y0 x1 y1 : Nat) (fill : RGBA)
  | text (pos : Int × Int) (s : String) (fill : RGBA) (fontSize : Nat)
deriving DecidableEq, Repr

/-- Whether the op is a draw.text call. -/
def DrawOp.isText : DrawOp → Bool
  | .text .. => true
  | _ => false

/-- Fill every pixel of the inclusive box, as draw.rectangle with fill
does (PIL includes both corners; coordinates beyond the canvas are
clipped, which a pixel map models for free). -/
def fillBox (x0 y0 x1 y1 : Nat) (c : RGBA) (img : Img) : Img :=
  { img with px := fun x y =>
      if x0 ≤ x ∧ x ≤ x1 ∧ y0 ≤ y ∧ y ≤ y1 then c else img.px x y }

/-- Fill for draw.polygon.  Both polygon calls of the source (lines 40-53)
pass the four corners of an axis-aligned rectangle, which PIL fills as the
solid box they span, so the fill is modelled as filling the bounding box
of the points. -/
def fillPolygon (pts : List (Nat × Nat)) (c : RGBA) (img : Img) : Img :=
  match pts with
  | [] => img
  | p :: ps =>
    fillBox (ps.foldl (fun m q => min m q.1) p.1)
      (ps.foldl (fun m q => min m q.2) p.2)
      (ps.foldl (fun m q => max m q.1) p.1)
      (ps.foldl (fun m q => max m q.2) p.2) c img

/-- Apply one draw call to the canvas. -/
def applyOp (ctx : FontCtx) (img : Img) (op : DrawOp) : Img :=
  match op with
  | .polygon pts c => fillPolygon pts c img
  | .rect x0 y0 x1 y1 c => fillBox x0 y0 x1 y1 c img
  | .text pos s c fs =>
      { img with px := fun x y => blendPx (img.px x y) c (ctx.cov s fs pos x y) }

/-- border_width = max(2, size // 64), line 18 of the source. -/
def border_width (size : Nat) : Nat := max 2 (size / 64)

/-- num_teeth = max(8, size // 32), line 24 of the source. -/
def num_teeth (size : Nat) : Nat := max 8 (size / 32)

/-- The jagged top-edge point list of lines 23-29: tooth i sits at the real
x-coordinate i * (size / num_teeth) with y either 0 or border_width * 2,
and a final point (size, 0) is appended.  The list is computed and then
never passed to a draw call. -/
def points_top (size : Nat) : List (ℚ × ℚ) :=
  ((List.range (num_teeth size)).map (fun i =>
    (((i : ℚ) * ((size : ℚ) / (num_teeth size : ℚ))),
      if i % 2 = 0 then (0 : ℚ) else ((border_width size * 2 : Nat) : ℚ))))
  ++ [((size : ℚ), (0 : ℚ))]

/-- The jagged bottom-edge point list of lines 32-36, likewise computed and
never drawn. -/
def points_bottom (size : Nat) : List (ℚ × ℚ) :=
  ((List.range (num_teeth size)).map (fun i =>
    (((i : ℚ) * ((size : ℚ) / (num_teeth size : ℚ))),
      if i % 2 = 0 then ((size : Nat) : ℚ)
      else ((size - border_width size * 2 : Nat) : ℚ))))
  ++ [((size : ℚ), ((size : Nat) : ℚ))]

/-- The index list of Python range(0, size, size // 16) driving the
torn-edge loop of line 57.  The loop only runs when 64 ≤ size, so the
step size // 16 is at least 4 there (a step of 0 cannot reach the loop). -/
def tearIndices (size : Nat) : List Nat :=
  (List.range ((size + size / 16 - 1) / (size / 16))).map (fun k => k * (size / 16))

/-- The two ticket-punch polygons of lines 40-53. -/
def punchOps (size : Nat) : List DrawOp :=
  [DrawOp.polygon [(0, size / 8), (border_width size * 3, size / 8),
      (border_width size * 3, size / 8 + size / 16), (0, size / 8 + size / 16)] yellow,
   DrawOp.polygon [(size - border_width size * 3, size / 8), (size, size / 8),
      (size, size / 8 + size / 16), (size - border_width size * 3, size / 8 + size / 16)]
      yellow]

/-- The torn top and bottom edges of lines 56-66: for 64 ≤ size two
rectangles per loop index with tear_height = (i % 2) * border_width +
border_width, otherwise the two plain bars of lines 65-66. -/
def tearOps (size : Nat) : List DrawOp :=
  if 64 ≤ size then
    (tearIndices size).flatMap (fun i =>
      [DrawOp.rect i 0 (i + size / 16) ((i % 2) * border_width size + border_width size)
        yellow,
       DrawOp.rect i (size - ((i % 2) * border_width size + border_width size))
        (i + size / 16) size yellow])
  else
    [DrawOp.rect 0 0 size (border_width size) yellow,
     DrawOp.rect 0 (size - border_width size) size size yellow]

/-- The solid left and right borders of lines 69-70. -/
def sideOps (size : Nat) : List DrawOp :=
  [DrawOp.rect 0 0 (border_width size * 2) size yellow,
   DrawOp.rect (size - border_width size * 2) 0 size size yellow]

/-- The text section of lines 72-124: for 128 ≤ size the "N64" label at
y = size // 3 with a shadow at offset (+2, +2), and for 256 ≤ size also
the "EMULATOR" label below it with a shadow at offset (+1, +1); for
32 ≤ size < 128 a single centred "N64" without shadow; below 32 nothing.
The x-positions use Python floor division (size - text_width) // 2, which
is Int.fdiv here. -/
def textOps (ctx : FontCtx) (size : Nat) : List DrawOp :=
  if 128 ≤ size then
    let font_size := size / 8
    let text_width := ctx.textW "N64" font_size
    let text_height := ctx.textH "N64" font_size
    let text_x : Int := Int.fdiv ((size : Int) - (text_width : Int)) 2
    let text_y : Int := ((size / 3 : Nat) : Int)
    [DrawOp.text (text_x + 2, text_y + 2) "N64" shadowBlack font_size,
     DrawOp.text (text_x, text_y) "N64" yellow font_size]
    ++ (if 256 ≤ size then
          let font_size_small := size / 16
          let text2_width := ctx.textW "EMULATOR" font_size_small
          let text2_x : Int := Int.fdiv ((size : Int) - (text2_width : Int)) 2
          let text2_y : Int := text_y + (text_height : Int) + ((size / 20 : Nat) : Int)
          [DrawOp.text (text2_x + 1, text2_y + 1) "EMULATOR" shadowBlack font_size_small,
           DrawOp.text (text2_x, text2_y) "EMULATOR" yellow font_size_small]
        else [])
  else if 32 ≤ size then
    let font_size := size / 4
    let text_width := ctx.textW "N64" font_size
    let text_height := ctx.textH "N64" font_size
    let text_x : Int := Int.fdiv ((size : Int) - (text_width : Int)) 2
    let text_y : Int := Int.fdiv ((size : Int) - (text_height : Int)) 2
    [DrawOp.text (text_x, text_y) "N64" yellow font_size]
  else []

/-- The ordered trace of every ImageDraw call create_blockbuster_icon
issues on the RGBA canvas (lines 40-124).  The point lists points_top and
points_bottom are computed first, exactly as in lines 23-36, and exactly
as in the source they appear in no draw call. -/
def create_blockbuster_icon_ops (ctx : FontCtx) (size : Nat) : List DrawOp :=
  let _pt := points_top size
  let _pb := points_bottom size
  punchOps size ++ tearOps size ++ sideOps size ++ textOps ctx size

/-- A mode-L (single channel, 0..255) mask image. -/
abbrev LImg := Nat → Nat → Nat

/-- mask_draw.rectangle with a constant fill. -/
def maskFillBox (x0 y0 x1 y1 v : Nat) (m : LImg) : LImg :=
  fun x y => if x0 ≤ x ∧ x ≤ x1 ∧ y0 ≤ y ∧ y ≤ y1 then v else m x y

/-- Whether pixel (x, y) lies inside the ellipse inscribed in the box
[x0, y0, x1, y1]: the condition
((2x - x0 - x1) / (x1 - x0))^2 + ((2y - y0 - y1) / (y1 - y0))^2 ≤ 1
cleared of denominators. -/
def inEllipse (x0 y0 x1 y1 x y : Int) : Bool :=
  decide ((2 * x - x0 - x1) ^ 2 * (y1 - y0) ^ 2 + (2 * y - y0 - y1) ^ 2 * (x1 - x0) ^ 2
    ≤ (x1 - x0) ^ 2 * (y1 - y0) ^ 2)

/-- mask_draw.ellipse with a constant fill: set every pixel inside the
inscribed ellipse of the box to v. -/
def maskEllipse (x0 y0 x1 y1 v : Nat) (m : LImg) : LImg :=
  fun x y => if inEllipse (x0 : Int) (y0 : Int) (x1 : Int) (y1 : Int) (x : Int) (y : Int)
    then v else m x y

/-- The corner mask of lines 127-138: a mode-L canvas of value 255, the
redundant full-canvas rectangle of line 132, then the four corner disks
of radius size // 8 filled to 0 (lines 135-138). -/
def cornerMask (size : Nat) : LImg :=
  let radius := size / 8
  maskEllipse (size - radius * 2) (size - radius * 2) size size 0
    (maskEllipse 0 (size - radius * 2) (radius * 2) size 0
      (maskEllipse (size - radius * 2) 0 size (radius * 2) 0
        (maskEllipse 0 0 (radius * 2) (radius * 2) 0
          (maskFillBox 0 0 size size 255 (fun _ _ => 255)))))

/-- img.putalpha(mask): replace the alpha channel with the mask values
(line 141). -/
def putalpha (img : Img) (m : LImg) : Img :=
  { img with px := fun x y => { img.px x y with a := m x y } }

/-- The image create_blockbuster_icon(size) returns (lines 7-143): the
blue canvas with every draw call applied in order, and for 64 ≤ size the
corner mask written into the alpha channel. -/
def create_blockbuster_icon (ctx : FontCtx) (size : Nat) : Img :=
  let drawn := (create_blockbuster_icon_ops ctx size).foldl (applyOp ctx) (imageNew size blue)
  if 64 ≤ size then putalpha drawn (cornerMask size) else drawn

/-- Variant of the op trace with the dead points_top and points_bottom
computations removed (they bind nothing the trace uses). -/
def create_blockbuster_icon_ops_trimmed (ctx : FontCtx) (size : Nat) : List DrawOp :=
  punchOps size ++ tearOps size ++ sideOps size ++ textOps ctx size

/-- Variant of create_blockbuster_icon rendered from the trimmed trace. -/
def create_blockbuster_icon_trimmed (ctx : FontCtx) (size : Nat) : Img :=
  let drawn := (create_blockbuster_icon_ops_trimmed ctx size).foldl (applyOp ctx)
    (imageNew size blue)
  if 64 ≤ size then putalpha drawn (cornerMask size) else drawn

/-- Filename f-string of line 158. -/
def icon1xName (size : Nat) : String :=
  "icon_" ++ toString size ++ "x" ++ toString size ++ ".png"

/-- Filename f-string of line 165. -/
def icon2xName (size : Nat) : String :=
  "icon_" ++ toString size ++ "x" ++ toString size ++ "@2x.png"

/-- The fixed macOS size list of line 152. -/
def sizes : List Nat := [16, 32, 64, 128, 256, 512, 1024]

/-- The (filename, scale, size label) fields of the ten image stanzas of
the contents_json literal, lines 174-233, in order; the idiom field is
"mac" in every stanza. -/
def manifestEntries : List (String × String × String) :=
  [("icon_16x16.png", "1x", "16x16"),
   ("icon_16x16@2x.png", "2x", "16x16"),
   ("icon_32x32.png", "1x", "32x32"),
   ("icon_32x32@2x.png", "2x", "32x32"),
   ("icon_128x128.png", "1x", "128x128"),
   ("icon_128x128@2x.png", "2x", "128x128"),
   ("icon_256x256.png", "1x", "256x256"),
   ("icon_256x256@2x.png", "2x", "256x256"),
   ("icon_512x512.png", "1x", "512x512"),
   ("icon_512x512@2x.png", "2x", "512x512")]

/-- One image stanza rendered with the exact punctuation and indentation
of the literal (braces written with hex escapes). -/
def manifestStanza (e : String × String × String) : String :=
  "    \x7b\n      \"filename\" : \"" ++ e.1
    ++ "\",\n      \"idiom\" : \"mac\",\n      \"scale\" : \"" ++ e.2.1
    ++ "\",\n      \"size\" : \"" ++ e.2.2 ++ "\"\n    \x7d"

/-- The contents_json literal of lines 172-240, byte for byte, including
the trailing newline of the Python triple-quoted string. -/
def contentsJson : String :=
  "\x7b\n  \"images\" : [\n"
    ++ String.intercalate ",\n" (manifestEntries.map manifestStanza)
    ++ "\n  ],\n  \"info\" : \x7b\n    \"author\" : \"xcode\",\n    \"version\" : 1\n  \x7d\n\x7d\n"

/-- The filenames the manifest references. -/
def manifestFilenames : List String := manifestEntries.map (fun e => e.1)

/-- Contents of one written file: a saved PNG image or a text document. -/
inductive FileData where
  | png (img : Img)
  | textFile (s : String)

/-- The writes of one iteration of the size loop, lines 156-169: the
standard-density icon, then for size ≤ 512 the double-density icon
rendered at size * 2 under the @2x name. -/
def sizeWrites (ctx : FontCtx) (size : Nat) : List (String × FileData) :=
  (icon1xName size, FileData.png (create_blockbuster_icon ctx size)) ::
    (if size ≤ 512 then
      [(icon2xName size, FileData.png (create_blockbuster_icon ctx (size * 2)))]
    else [])

/-- Every file main() writes, in order (lines 156-244): the images of the
size loop, then Contents.json.  The iconutil invocation of line 249 runs
outside the program and writes nothing through it. -/
def mainWrites (ctx : FontCtx) : List (String × FileData) :=
  sizes.flatMap (sizeWrites ctx) ++ [("Contents.json", FileData.textFile contentsJson)]

/-- The output directory as a map from filename to contents. -/
abbrev FS := String → Option FileData

/-- Writing one file: create it or overwrite an existing one. -/
def writeOne (fs : FS) (w : String × FileData) : FS :=
  fun n => if n = w.1 then some w.2 else fs n

/-- Performing a list of writes in order. -/
def applyWrites (fs : FS) (ws : List (String × FileData)) : FS :=
  ws.foldl writeOne fs

/-- The effect of one run of main() on the output directory. -/
def runMain (ctx : FontCtx) (fs : FS) : FS := applyWrites fs (mainWrites ctx)

/-- A concrete font environment for evaluating the embedding at specific
inputs: proportional metrics and an everywhere-zero glyph coverage. -/
def defaultCtx : FontCtx where
  textW := fun s fs => s.length * fs
  textH := fun _ fs => fs
  cov := fun _ _ _ _ _ => 0
  cov_le := fun _ _ _ _ _ => Nat.zero_le _

/-- Position of the first draw.text call in the trace that draws the
string s in the given fill colour. -/
def findTextPos (ops : List DrawOp) (s : String) (fill : RGBA) : Option (Int × Int) :=
  ops.findSome? fun op =>
    match op with
    | .text p t f _ => if t = s ∧ f = fill then some p else none
    | _ => none

/-- Offset of the shadow of label s from the label itself: the position of
the shadow-ink text call minus the position of the yellow text call. -/
def shadowOffset (ops : List DrawOp) (s : String) : Option (Int × Int) :=
  (findTextPos ops s shadowBlack).bind fun ps =>
    (findTextPos ops s yellow).map fun pl => (ps.1 - pl.1, ps.2 - pl.2)

/-- Vertical position at which label s is drawn in yellow. -/
def labelY (ops : List DrawOp) (s : String) : Option Int :=
  (findTextPos ops s yellow).map Prod.snd

/-- The value the last write of filename n in the list leaves behind, if
any write touches n at all. -/
def lastWrite : List (String × FileData) → String → Option FileData
  | [], _ => none
  | w :: ws, n =>
    match lastWrite ws n with
    | some d => some d
    | none => if n = w.1 then some w.2 else none

theorem applyOp_width (ctx : FontCtx) (img : Img) (op : DrawOp) :
    (applyOp ctx img op).width = img.width := by
  cases op with
  | polygon pts c => cases pts <;> rfl
  | rect x0 y0 x1 y1 c => rfl
  | text pos s c fs => rfl

theorem applyOp_height (ctx : FontCtx) (img : Img) (op : DrawOp) :
    (applyOp ctx img op).height = img.height := by
  cases op with
  | polygon pts c => cases pts <;> rfl
  | rect x0 y0 x1 y1 c => rfl
  | text pos s c fs => rfl

theorem foldl_applyOp_width (ctx : FontCtx) (ops : List DrawOp) (img : Img) :
    (ops.foldl (applyOp ctx) img).width = img.width := by
  induction ops generalizing img with
  | nil => rfl
  | cons op ops ih => rw [List.foldl_cons, ih, applyOp_width]

theorem foldl_applyOp_height (ctx : FontCtx) (ops : List DrawOp) (img : Img) :
    (ops.foldl (applyOp ctx) img).height = img.height := by
  induction ops generalizing img with
  | nil => rfl
  | cons op ops ih => rw [List.foldl_cons, ih, applyOp_height]

/-- C4: for every positive size, create_blockbuster_icon(size) returns an
image whose width and height both equal size. -/
theorem icon_dimensions (ctx : FontCtx) (size : Nat) (h : 0 < size) :
    (create_blockbuster_icon ctx size).width = size ∧
    (create_blockbuster_icon ctx size).height = size := by
  unfold create_blockbuster_icon
  refine ⟨?_, ?_⟩ <;> split <;>
    simp [putalpha, foldl_applyOp_width, foldl_applyOp_height, imageNew]

theorem icon_dimensions_w :
    (create_blockbuster_icon defaultCtx 16).width = 16 ∧
    (create_blockbuster_icon defaultCtx 16).height = 16 :=
  icon_dimensions defaultCtx 16 (by decide)

/-- C8: the border thickness is at least 2 pixels and the tooth count at
least 8, with border_width = max(2, size // 64) and
num_teeth = max(8, size // 32). -/
theorem border_and_teeth_minimums (size : Nat) (h : 0 < size) :
    2 ≤ border_width size ∧ 8 ≤ num_teeth size ∧
    border_width size = max 2 (size / 64) ∧ num_teeth size = max 8 (size / 32) :=
  ⟨Nat.le_max_left _ _, Nat.le_max_left _ _, rfl, rfl⟩

theorem border_and_teeth_minimums_w :
    2 ≤ border_width 16 ∧ 8 ≤ num_teeth 16 ∧
    border_width 16 = max 2 (16 / 64) ∧ num_teeth 16 = max 8 (16 / 32) :=
  border_and_teeth_minimums 16 (by decide)

/-- C10: the point lists points_top and points_bottom are dead: the op
trace and the returned image are identical to the variants with those
computations removed, the jagged top and bottom edges for 64 ≤ size being
drawn instead by the tear rectangles stepping by size // 16. -/
theorem dead_point_lists_removable (ctx : FontCtx) (size : Nat) :
    create_blockbuster_icon ctx size = create_blockbuster_icon_trimmed ctx size ∧
    create_blockbuster_icon_ops ctx size = create_blockbuster_icon_ops_trimmed ctx size :=
  ⟨rfl, rfl⟩

theorem punchOps_noText (size : Nat) : ∀ op ∈ punchOps size, op.isText = false := by
  intro op hop
  simp only [punchOps, List.mem_cons, List.mem_singleton, List.not_mem_nil, or_false] at hop
  rcases hop with h | h <;> subst h <;> rfl

theorem sideOps_noText (size : Nat) : ∀ op ∈ sideOps size, op.isText = false := by
  intro op hop
  simp only [sideOps, List.mem_cons, List.mem_singleton, List.not_mem_nil, or_false] at hop
  rcases hop with h | h <;> subst h <;> rfl

theorem tearOps_noText (size : Nat) : ∀ op ∈ tearOps size, op.isText = false := by
  intro op hop
  rw [tearOps] at hop
  split at hop
  · simp only [List.mem_flatMap] at hop
    obtain ⟨i, _, hop⟩ := hop
    simp only [List.mem_cons, List.mem_singleton, List.not_mem_nil, or_false] at hop
    rcases hop with h | h <;> subst h <;> rfl
  · simp only [List.mem_cons, List.mem_singleton, List.not_mem_nil, or_false] at hop
    rcases hop with h | h <;> subst h <;> rfl

/-- C7: for the sizes of the fixed list below 32 (that is, size 16) the
trace of create_blockbuster_icon contains no draw.text call at all, so no
pixel of the returned image is touched by a text-drawing operation. -/
theorem no_text_below_32 (ctx : FontCtx) (size : Nat) (h1 : size ∈ sizes)
    (h2 : size < 32) :
    (create_blockbuster_icon_ops ctx size).all (fun op => !op.isText) = true := by
  rw [List.all_eq_true]
  intro op hop
  have hfalse : op.isText = false := by
    rw [create_blockbuster_icon_ops] at hop
    rw [textOps, if_neg (by omega : ¬ 128 ≤ size), if_neg (by omega : ¬ 32 ≤ size)] at hop
    simp only [List.append_nil, List.mem_append] at hop
    rcases hop with (hop | hop) | hop
    · exact punchOps_noText size op hop
    · exact tearOps_noText size op hop
    · exact sideOps_noText size op hop
  simp [hfalse]

theorem no_text_below_32_w :
    (create_blockbuster_icon_ops defaultCtx 16).all (fun op => !op.isText) = true :=
  no_text_below_32 defaultCtx 16 (by decide) (by decide)

theorem findTextPos_append (l1 l2 : List DrawOp) (s : String) (f : RGBA) :
    findTextPos (l1 ++ l2) s f = (findTextPos l1 s f).or (findTextPos l2 s f) :=
  List.findSome?_append

theorem findTextPos_of_noText (l : List DrawOp) (s : String) (f : RGBA)
    (h : ∀ op ∈ l, op.isText = false) : findTextPos l s f = none := by
  rw [findTextPos, List.findSome?_eq_none_iff]
  intro op hop
  cases op with
  | polygon pts c => rfl
  | rect x0 y0 x1 y1 c => rfl
  | text pos t g fs => simpa [DrawOp.isText] using h _ hop

theorem findTextPos_cons_hit (rest : List DrawOp) (p : Int × Int) (s : String)
    (f : RGBA) (fs : Nat) :
    findTextPos (DrawOp.text p s f fs :: rest) s f = some p := by
  simp [findTextPos, List.findSome?]

theorem findTextPos_cons_miss (rest : List DrawOp) (p : Int × Int) (t s : String)
    (g f : RGBA) (fs : Nat) (h : ¬ (t = s ∧ g = f)) :
    findTextPos (DrawOp.text p t g fs :: rest) s f = findTextPos rest s f := by
  simp only [findTextPos, List.findSome?, if_neg h]

/-- The border section of the trace draws no text, so a text search over
the whole trace is a search over its text section. -/
theorem findTextPos_icon_ops (ctx : FontCtx) (size : Nat) (s : String) (f : RGBA) :
    findTextPos (create_blockbuster_icon_ops ctx size) s f
      = findTextPos (textOps ctx size) s f := by
  rw [create_blockbuster_icon_ops]
  rw [findTextPos_append, findTextPos_append, findTextPos_append]
  rw [findTextPos_of_noText _ s f (punchOps_noText size),
    findTextPos_of_noText _ s f (tearOps_noText size),
    findTextPos_of_noText _ s f (sideOps_noText size)]
  rfl

/-- C5 (amended): every label of size 128 and up is accompanied by a
shadow of the same string drawn in half-transparent black before it, but
the offset of the primary "N64" shadow is two pixels, (x+2, y+2) at lines
90-91, while only the secondary "EMULATOR" shadow (for 256 ≤ size) sits
at the one-pixel offset (x+1, y+1) of lines 107-108. -/
theorem shadow_offsets (ctx : FontCtx) (size : Nat) (h : 128 ≤ size) :
    shadowOffset (create_blockbuster_icon_ops ctx size) "N64" = some (2, 2) ∧
    (256 ≤ size →
      shadowOffset (create_blockbuster_icon_ops ctx size) "EMULATOR" = some (1, 1)) := by
  by_cases h256 : 256 ≤ size
  · constructor
    · rw [shadowOffset, findTextPos_icon_ops, findTextPos_icon_ops]
      simp only [textOps, h, h256, if_true, List.cons_append, List.nil_append]
      rw [findTextPos_cons_hit]
      rw [findTextPos_cons_miss _ _ _ _ _ _ _ (by decide), findTextPos_cons_hit]
      simp [Prod.ext_iff, add_sub_cancel_left]
    · intro _
      rw [shadowOffset, findTextPos_icon_ops, findTextPos_icon_ops]
      simp only [textOps, h, h256, if_true, List.cons_append, List.nil_append]
      rw [findTextPos_cons_miss _ _ _ _ _ _ _ (by decide),
        findTextPos_cons_miss _ _ _ _ _ _ _ (by decide), findTextPos_cons_hit]
      rw [findTextPos_cons_miss _ _ _ _ _ _ _ (by decide),
        findTextPos_cons_miss _ _ _ _ _ _ _ (by decide),
        findTextPos_cons_miss _ _ _ _ _ _ _ (by decide), findTextPos_cons_hit]
      simp [Prod.ext_iff, add_sub_cancel_left]
  · refine ⟨?_, fun hc => absurd hc h256⟩
    rw [shadowOffset, findTextPos_icon_ops, findTextPos_icon_ops]
    simp only [textOps, h, h256, if_true, if_false, List.append_nil]
    rw [findTextPos_cons_hit]
    rw [findTextPos_cons_miss _ _ _ _ _ _ _ (by decide), findTextPos_cons_hit]
    simp [Prod.ext_iff, add_sub_cancel_left]

theorem shadow_offsets_w :
    shadowOffset (create_blockbuster_icon_ops defaultCtx 256) "N64" = some (2, 2) ∧
    (256 ≤ 256 →
      shadowOffset (create_blockbuster_icon_ops defaultCtx 256) "EMULATOR" = some (1, 1)) :=
  shadow_offsets defaultCtx 256 (by decide)

/-- C5 counterexample: at size 128 the code draws the primary shadow at
offset (2, 2) from the label, so the claimed one-pixel offset (1, 1) is
refuted at this concrete input. -/
theorem primary_shadow_not_one_pixel :
    ¬ shadowOffset (create_blockbuster_icon_ops defaultCtx 128) "N64" = some (1, 1) := by
  decide

/-- C6: for 256 ≤ size the trace draws both the yellow "N64" label and the
yellow "EMULATOR" label, and the vertical position of "EMULATOR"
(text_y + text_height + size // 20, line 105) is strictly below the
vertical position size // 3 of "N64". -/
theorem secondary_label_below_primary (ctx : FontCtx) (size : Nat) (h : 256 ≤ size) :
    ∃ y1 y2 : Int, labelY (create_blockbuster_icon_ops ctx size) "N64" = some y1 ∧
      labelY (create_blockbuster_icon_ops ctx size) "EMULATOR" = some y2 ∧ y1 < y2 := by
  have h128 : 128 ≤ size := by omega
  refine ⟨((size / 3 : Nat) : Int),
    ((size / 3 : Nat) : Int) + (ctx.textH "N64" (size / 8) : Int) + ((size / 20 : Nat) : Int),
    ?_, ?_, ?_⟩
  · rw [labelY, findTextPos_icon_ops]
    simp only [textOps, h128, h, if_true, List.cons_append, List.nil_append]
    rw [findTextPos_cons_miss _ _ _ _ _ _ _ (by decide), findTextPos_cons_hit]
    rfl
  · rw [labelY, findTextPos_icon_ops]
    simp only [textOps, h128, h, if_true, List.cons_append, List.nil_append]
    rw [findTextPos_cons_miss _ _ _ _ _ _ _ (by decide),
      findTextPos_cons_miss _ _ _ _ _ _ _ (by decide),
      findTextPos_cons_miss _ _ _ _ _ _ _ (by decide), findTextPos_cons_hit]
    rfl
  · have h20 : 12 ≤ size / 20 := by
      calc 12 = 256 / 20 := by decide
        _ ≤ size / 20 := Nat.div_le_div_right h
    omega

theorem secondary_label_below_primary_w :
    ∃ y1 y2 : Int, labelY (create_blockbuster_icon_ops defaultCtx 256) "N64" = some y1 ∧
      labelY (create_blockbuster_icon_ops defaultCtx 256) "EMULATOR" = some y2 ∧ y1 < y2 :=
  secondary_label_below_primary defaultCtx 256 (by decide)

theorem mainWrite_names (ctx : FontCtx) :
    (mainWrites ctx).map Prod.fst =
      ["icon_16x16.png", "icon_16x16@2x.png", "icon_32x32.png", "icon_32x32@2x.png",
       "icon_64x64.png", "icon_64x64@2x.png", "icon_128x128.png", "icon_128x128@2x.png",
       "icon_256x256.png", "icon_256x256@2x.png", "icon_512x512.png", "icon_512x512@2x.png",
       "icon_1024x1024.png", "Contents.json"] := rfl

/-- C2 (amended): one run of main() writes exactly 7 standard-density
images (one per size of the fixed list), exactly 6 double-density images
(every size of the list up to and including 512 gets a 2x variant:
16, 32, 64, 128, 256, 512), and exactly 1 manifest document. -/
theorem file_counts (ctx : FontCtx) :
    (((mainWrites ctx).map Prod.fst).filter
        (fun n => sizes.any (fun s => n == icon1xName s))).length = 7 ∧
    (((mainWrites ctx).map Prod.fst).filter
        (fun n => sizes.any (fun s => n == icon2xName s))).length = 6 ∧
    (((mainWrites ctx).map Prod.fst).filter (fun n => n == "Contents.json")).length = 1 := by
  rw [mainWrite_names ctx]
  refine ⟨by decide, by decide, by decide⟩

/-- C2 counterexample: the number of double-density files one run writes
is not 5 (it is 6, since size 64 also gets icon_64x64@2x.png). -/
theorem double_density_count_ne_five :
    ¬ (((mainWrites defaultCtx).map Prod.fst).filter
        (fun n => sizes.any (fun s => n == icon2xName s))).length = 5 := by
  decide

/-- C3: the writes of main() are the image files of the size loop followed
by Contents.json last; for each size in 16, 32, 128, 256, 512 both the
standard and the @2x filenames appear in the manifest; and every filename
the manifest references is among the image files written before the
manifest. -/
theorem manifest_names_written (ctx : FontCtx) :
    mainWrites ctx = sizes.flatMap (sizeWrites ctx)
        ++ [("Contents.json", FileData.textFile contentsJson)] ∧
    (∀ s ∈ [16, 32, 128, 256, 512], icon1xName s ∈ manifestFilenames ∧
      icon2xName s ∈ manifestFilenames) ∧
    ∀ n ∈ manifestFilenames, n ∈ (sizes.flatMap (sizeWrites ctx)).map Prod.fst := by
  refine ⟨rfl, by decide, ?_⟩
  have hnames : (sizes.flatMap (sizeWrites ctx)).map Prod.fst =
      ["icon_16x16.png", "icon_16x16@2x.png", "icon_32x32.png", "icon_32x32@2x.png",
       "icon_64x64.png", "icon_64x64@2x.png", "icon_128x128.png", "icon_128x128@2x.png",
       "icon_256x256.png", "icon_256x256@2x.png", "icon_512x512.png", "icon_512x512@2x.png",
       "icon_1024x1024.png"] := rfl
  rw [hnames]
  decide

theorem applyWrites_eq (ws : List (String × FileData)) (fs : FS) (n : String) :
    applyWrites fs ws n = (lastWrite ws n).or (fs n) := by
  induction ws generalizing fs with
  | nil => rfl
  | cons w ws ih =>
    show applyWrites (writeOne fs w) ws n = (lastWrite (w :: ws) n).or (fs n)
    rw [ih]
    cases hl : lastWrite ws n with
    | some d => simp [lastWrite, hl]
    | none =>
      by_cases hn : n = w.1
      · subst hn
        simp [lastWrite, hl, writeOne]
      · simp [lastWrite, hl, writeOne, hn]

/-- C9: running main() a second time over the directory a first run left
behind changes nothing: the same filenames are written with the same
contents (each write overwrites), so the directory map is unchanged, and
the manifest bytes are the same fixed contents_json literal after every
run. -/
theorem rerun_idempotent (ctx : FontCtx) (fs : FS) :
    runMain ctx (runMain ctx fs) = runMain ctx fs ∧
    runMain ctx fs "Contents.json" = some (FileData.textFile contentsJson) := by
  constructor
  · funext n
    simp only [runMain]
    rw [applyWrites_eq, applyWrites_eq]
    cases hl : lastWrite (mainWrites ctx) n <;> simp [hl]
  · simp only [runMain]
    rw [applyWrites_eq]
    have hm : lastWrite (mainWrites ctx) "Contents.json"
        = some (FileData.textFile contentsJson) := rfl
    rw [hm]
    rfl

/-- C1: evaluation of the code at size 64 (and 16).  The claim says the
four corner pixels are fully transparent for 64 ≤ size, but the mask of
lines 127-141 fills the corner disks themselves to alpha 0 instead of the
area outside the rounded corner, and the inscribed ellipse of a corner
box never covers the corner pixel of the box, so all four corner pixels
keep alpha 255; pixel (8, 0), on the rim of the top-left disk, shows the
transparent hole the mask actually cuts.  The centre pixel is opaque and
the size-16 image keeps full alpha, as the claim says. -/
theorem corner_pixels_opaque_at_64 :
    ((create_blockbuster_icon defaultCtx 64).px 0 0).a = 255 ∧
    ((create_blockbuster_icon defaultCtx 64).px 63 0).a = 255 ∧
    ((create_blockbuster_icon defaultCtx 64).px 0 63).a = 255 ∧
    ((create_blockbuster_icon defaultCtx 64).px 63 63).a = 255 ∧
    ((create_blockbuster_icon defaultCtx 64).px 32 32).a = 255 ∧
    ((create_blockbuster_icon defaultCtx 64).px 8 0).a = 0 ∧
    ((create_blockbuster_icon defaultCtx 16).px 0 0).a = 255 := by
  decide
